import Mathlib

/-!
Verification development for the HealthCare Feedback Portal backend.

Shallow embedding of the feedback intake pipeline (`feedbackService.create`,
`feedbackService.generateReferenceId`, `feedbackService.update`), the
moderation state machine (`pendingEntryService.updateStatus`) and the
notification fan-out (`emailService.sendFeedbackEmails` and friends).

Conventions of the embedding:
- JavaScript strings are Lean `String`s; `null`/`undefined` become `Option`.
- JS truthiness of a nullable string (`s && ...`) is `truthy : Option String → Bool`
  (false for `none` and for the empty string).
- Prisma insensitive-mode equality is comparison after lowercasing
  (`ieq`), matching JS `toLowerCase()` on the ASCII data used here.
- The database stores are explicit lists threaded through the operations;
  each Prisma call becomes a pure query/update on those lists.
- Time and randomness are parameters: `dateStr` is the 8-digit date prefix
  produced by slicing `toISOString()` and dropping the dashes, and `randStr`
  is the exact string returned by `Math.random().toString(36)`.
- Email delivery is an oracle `delivered : EmailKind → Bool`; each send helper
  in `email.service.ts` catches internally and returns a boolean, so a send is
  always an *attempt* whose outcome is the answer of the oracle.
-/

namespace Portal

/-- JS `s.toLowerCase()` on the ASCII alphabet in play, as an explicit map
over the character list. -/
def jsToLowerCase (s : String) : String :=
  String.mk (s.data.map Char.toLower)

/-- Case-insensitive string equality: Prisma insensitive mode and the JS
`toLowerCase()` comparisons in the dedup keys. -/
def ieq (a b : String) : Bool :=
  jsToLowerCase a == jsToLowerCase b

/-- JS truthiness of an optional string: `null`/`undefined` and `""` are falsy. -/
def truthy (o : Option String) : Bool :=
  match o with
  | none => false
  | some s => s != ""

/-- JS optional-chained lowercasing with an empty-string fallback, used
when building dedup keys. -/
def lcOpt (o : Option String) : String :=
  jsToLowerCase (o.getD "")

/-- Prisma insensitive equality of a nullable column against a string value:
a NULL column never equals a string. -/
def ieqOpt (col : Option String) (v : String) : Bool :=
  match col with
  | none => false
  | some s => ieq s v

/-- Digit character of a base-36 digit value, as produced by JS
`Number.prototype.toString(36)`: `0`-`9` then lowercase `a`-`z`. -/
def base36Digit (n : Nat) : Char :=
  if n < 10 then Char.ofNat (48 + n) else Char.ofNat (87 + n)

/-- Fraction digits of the base-36 expansion of `num / den` (for `num < den`),
fuel-bounded; the expansion stops when the remainder hits zero, exactly as a
terminating `toString(36)` rendering does. -/
def base36FracDigits : Nat → Nat → Nat → List Char
  | 0, _, _ => []
  | _ + 1, 0, _ => []
  | fuel + 1, num + 1, den =>
    let m := (num + 1) * 36
    base36Digit (m / den) :: base36FracDigits fuel (m % den) den

/-- Rendering of a JS number `num / den ∈ [0, 1)` by `toString(36)`:
`0` for zero, otherwise `0.` followed by the base-36 fraction digits.
This characterises the possible outputs of `Math.random().toString(36)`
for random values whose expansion terminates within `fuel` digits. -/
def jsNumToString36 (num den fuel : Nat) : String :=
  if num = 0 then "0" else String.mk ('0' :: '.' :: base36FracDigits fuel num den)

/-- JS `s.substring(2, 7)`: the characters at indices `[2, 7)`. -/
def jsSubstring2to7 (s : String) : String :=
  String.mk ((s.data.drop 2).take 5)

/-- JS `s.toUpperCase()` on the ASCII alphabet in play, as an explicit map
over the character list. -/
def jsToUpperCase (s : String) : String :=
  String.mk (s.data.map Char.toUpper)

/-- ASCII decimal digit test, for the `\d` of the reference-code pattern. -/
def isAsciiDigit (c : Char) : Bool :=
  48 ≤ c.toNat && c.toNat ≤ 57

/-- Character class `[A-Z0-9]` of the reference-code pattern. -/
def isUpperAlnum (c : Char) : Bool :=
  isAsciiDigit c || (65 ≤ c.toNat && c.toNat ≤ 90)

/-- Decision procedure for the reference-code regular expression of the spec:
`FB-\d{8}-[A-Z0-9]{5}` (anchored at both ends). -/
def matchesRefPattern (s : String) : Bool :=
  match s.data with
  | 'F' :: 'B' :: '-' :: rest =>
    let ds := rest.take 8
    let rest2 := rest.drop 8
    (ds.length == 8) && ds.all isAsciiDigit &&
      (match rest2 with
       | '-' :: suf => (suf.length == 5) && suf.all isUpperAlnum
       | _ => false)
  | _ => false

namespace feedbackService

/-- Embedding of `feedbackService.generateReferenceId`
(src/src/services/auth.service.ts lines 297-302).  `dateStr` is the 8-digit
date string and `randStr` the exact output of `Math.random().toString(36)`;
the code takes `randStr.substring(2, 7).toUpperCase()` as the suffix. -/
def generateReferenceId (dateStr randStr : String) : String :=
  "FB-" ++ dateStr ++ "-" ++ jsToUpperCase (jsSubstring2to7 randStr)

end feedbackService

/-- Status enum of a FeedbackSubmission (src/src/types/enums.ts). -/
inductive FeedbackStatus where
  | new
  | in_review
  | resolved
  | closed
deriving Repr, DecidableEq

/-- Status enum of a PendingEntry (src/src/types/enums.ts). -/
inductive PendingStatus where
  | pending
  | approved
  | rejected
deriving Repr, DecidableEq

/-- Row of the `health_facilities` table (the canonical directory), with the
fields `pendingEntryService.updateStatus` reads and writes. -/
structure HealthFacility where
  facility_name : String
  state : String
  lga : String
  ownership_type : String
deriving Repr, DecidableEq

/-- Row of the `pending_entries` table, fields as in the `PendingEntry`
interface of src/src/types/enums.ts (timestamps as abstract `Nat` instants). -/
structure PendingEntry where
  id : Nat
  entry_type : String
  value : String
  feedback_id : Option Nat
  facility_type : Option String
  state : Option String
  lga : Option String
  status : PendingStatus
  created_at : Nat
  approved_at : Option Nat
  approved_by : Option String
deriving Repr, DecidableEq

/-- Fields of `CreateFeedbackDto` that the embedded logic of
`feedbackService.create` reads.  The remaining reporter-demographic and
incident fields are copied verbatim into the stored row and never branched
on, so they are omitted from the embedding. -/
structure CreateFeedbackDto where
  anonymous : Bool
  reporter_email : Option String
  feedback_type : String
  facility_type : Option String
  facility_state : Option String
  facility_lga : Option String
  facility_name : Option String
  department : Option String
  location : Option String
  description : String
  issue_classification : Option String
  issue_classification_other : Option String
deriving Repr, DecidableEq

/-- Stored FeedbackSubmission row (the fields the claims are about). -/
structure FeedbackSubmission where
  id : Nat
  reference_id : String
  anonymous : Bool
  reporter_email : Option String
  feedback_type : String
  facility_type : Option String
  facility_state : Option String
  facility_lga : Option String
  facility_name : Option String
  department : Option String
  location : Option String
  description : String
  issue_classification : Option String
  issue_classification_other : Option String
  survey_token : String
  status : FeedbackStatus
  admin_notes : Option String
  assigned_department : Option String
  confirmation_email_sent : Bool
  followup_email_sent : Bool
deriving Repr, DecidableEq

/-- Object pushed onto `pendingEntriesToCreate` inside `feedbackService.create`
(auth.service.ts lines 322-329): the candidate for a new pending entry. -/
structure CandidateEntry where
  entry_type : String
  value : String
  feedback_id : Nat
  facility_type : Option String := none
  state : Option String := none
  lga : Option String := none
deriving Repr, DecidableEq

/-- Prisma `healthFacility.findFirst` with insensitive equality on
`facility_name`, `state` and `lga` (auth.service.ts lines 334-340 and
part_011 lines 108-114), reduced to whether a match exists. -/
def facilityExists (fs : List HealthFacility) (name st lg : String) : Bool :=
  fs.any fun f => ieq f.facility_name name && ieq f.state st && ieq f.lga lg

namespace feedbackService

/-- Candidate record pushed for a custom facility name
(auth.service.ts lines 344-351 and, identically, 356-363). -/
def mkFacilityCand (d : CreateFeedbackDto) (name st lg : String) (fid : Nat) :
    CandidateEntry :=
  { entry_type := "facility", value := name, feedback_id := fid,
    facility_type := d.facility_type, state := some st, lga := some lg }

/-- Facility-candidate derivation of `create` (auth.service.ts lines 331-365):
guarded by JS truthiness of the name/state/lga triple; on a successful lookup
the candidate is pushed only when no directory match exists; if the lookup
throws, the catch block pushes the same candidate unconditionally. -/
def facilityCandidates (d : CreateFeedbackDto) (facilities : List HealthFacility)
    (lookupThrows : Bool) (fid : Nat) : List CandidateEntry :=
  match d.facility_name, d.facility_state, d.facility_lga with
  | some name, some st, some lg =>
    if name ≠ "" ∧ st ≠ "" ∧ lg ≠ "" then
      if lookupThrows then
        [mkFacilityCand d name st lg fid]
      else if facilityExists facilities name st lg then
        []
      else
        [mkFacilityCand d name st lg fid]
    else
      []
  | _, _, _ => []

/-- Hard-coded department vocabulary (auth.service.ts lines 368-373). -/
def predefinedDepartments : List String :=
  ["Emergency", "Outpatient", "Inpatient", "Surgery", "Maternity", "Paediatrics",
   "Radiology", "Laboratory", "Pharmacy", "Administration", "Mental Health",
   "Rehabilitation", "ICU", "Orthopaedics", "Cardiology", "Oncology", "Dental",
   "ENT", "Ophthalmology", "Gynaecology", "Anaesthesiology", "General Ward", "Other"]

/-- Hard-coded location vocabulary (auth.service.ts lines 383-387). -/
def predefinedLocations : List String :=
  ["Reception", "Waiting Area", "Consultation Room", "Ward", "Operating Theatre",
   "Pharmacy", "Laboratory", "Radiology", "Emergency Room", "Corridor",
   "Cafeteria", "Car Park", "Restroom", "Nurses Station", "Doctor\x27s Office", "Other"]

/-- Department-candidate derivation (auth.service.ts lines 374-380):
`data.department && !predefinedDepartments.includes(data.department)`. -/
def departmentCandidates (d : CreateFeedbackDto) (fid : Nat) : List CandidateEntry :=
  match d.department with
  | some dep =>
    if dep ≠ "" ∧ dep ∉ predefinedDepartments then
      [{ entry_type := "department", value := dep, feedback_id := fid }]
    else
      []
  | none => []

/-- Location-candidate derivation (auth.service.ts lines 388-394). -/
def locationCandidates (d : CreateFeedbackDto) (fid : Nat) : List CandidateEntry :=
  match d.location with
  | some loc =>
    if loc ≠ "" ∧ loc ∉ predefinedLocations then
      [{ entry_type := "location", value := loc, feedback_id := fid }]
    else
      []
  | none => []

/-- Issue-classification-candidate derivation (auth.service.ts lines 397-403):
`data.issue_classification_other && data.issue_classification === "Other"`. -/
def issueClassificationCandidates (d : CreateFeedbackDto) (fid : Nat) :
    List CandidateEntry :=
  match d.issue_classification_other with
  | some other =>
    if other ≠ "" ∧ d.issue_classification = some "Other" then
      [{ entry_type := "issue_classification", value := other, feedback_id := fid }]
    else
      []
  | none => []

/-- The full `pendingEntriesToCreate` list of `create`, in push order. -/
def pendingEntriesToCreate (d : CreateFeedbackDto) (facilities : List HealthFacility)
    (lookupThrows : Bool) (fid : Nat) : List CandidateEntry :=
  facilityCandidates d facilities lookupThrows fid ++
    departmentCandidates d fid ++
    locationCandidates d fid ++
    issueClassificationCandidates d fid

/-- One disjunct of the `OR` of the `pendingEntry.findMany` dedup query
(auth.service.ts lines 409-420): exact `entry_type`, insensitive `value`, and
insensitive `state`/`lga` only when the candidate has truthy state and lga.
Note the query has no filter on `status`. -/
def orBranchMatches (c : CandidateEntry) (e : PendingEntry) : Bool :=
  e.entry_type == c.entry_type && ieq e.value c.value &&
    (if truthy c.state && truthy c.lga then
       ieqOpt e.state (c.state.getD "") && ieqOpt e.lga (c.lga.getD "")
     else
       true)

/-- Dedup key built in JS as
`entry_type + ":" + value.toLowerCase() + ":" + (state lowered or empty) + ":" + (lga lowered or empty)`
(auth.service.ts lines 423-431). -/
def dedupKey (t v : String) (st lg : Option String) : String :=
  t ++ ":" ++ jsToLowerCase v ++ ":" ++ lcOpt st ++ ":" ++ lcOpt lg

/-- Dedup key of an existing PendingEntry row. -/
def entryKey (e : PendingEntry) : String :=
  dedupKey e.entry_type e.value e.state e.lga

/-- Dedup key of a candidate. -/
def candKey (c : CandidateEntry) : String :=
  dedupKey c.entry_type c.value c.state c.lga

/-- Result of the `findMany` dedup query: the stored rows matched by some
`OR` branch of some candidate. -/
def existingEntriesFor (cands : List CandidateEntry) (store : List PendingEntry) :
    List PendingEntry :=
  store.filter fun e => cands.any fun c => orBranchMatches c e

/-- The `newEntries` filter (auth.service.ts lines 429-432): keep a candidate
unless its dedup key equals the key of some row returned by the query. -/
def newEntriesAfterDedup (cands : List CandidateEntry) (store : List PendingEntry) :
    List CandidateEntry :=
  cands.filter fun c =>
    !((existingEntriesFor cands store).any fun e => entryKey e == candKey c)

/-- Row created by `pendingEntry.createMany` for a surviving candidate.  The
`status` column is not in the insert data; its `pending` default comes from
the Prisma schema (not under src/), matching the words of the spec that the
remainder is inserted as new `pending` rows. -/
def candToRow (c : CandidateEntry) (rid : Nat) (now : Nat) : PendingEntry :=
  { id := rid, entry_type := c.entry_type, value := c.value,
    feedback_id := some c.feedback_id, facility_type := c.facility_type,
    state := c.state, lga := c.lga, status := PendingStatus.pending,
    created_at := now, approved_at := none, approved_by := none }

end feedbackService

/-- Notification channels of `email.service.ts`.  Each send helper catches
every error internally and returns a boolean, so one call is one attempt. -/
inductive EmailKind where
  | confirmation
  | followup
  | adminNotification
  | caseClosed
deriving Repr, DecidableEq

/-- Return value of `emailService.sendFeedbackEmails`
(email.service.ts lines 397-431). -/
structure EmailStatus where
  confirmationSent : Bool
  followupSent : Bool
  adminNotificationSent : Bool
deriving Repr, DecidableEq

/-- Environment of one `feedbackService.create` call: the surrounding store
contents, the failure behaviour of the external dependencies, and the values
produced by the clock, `Math.random()` and `uuidv4()`. -/
structure CreateEnv where
  facilities : List HealthFacility
  facilityLookupThrows : Bool
  pendingStore : List PendingEntry
  delivered : EmailKind → Bool
  dateStr : String
  randStr : String
  surveyToken : String
  fid : Nat
  nextPendingId : Nat
  now : Nat

/-- Everything observable about one `create` call: the object returned to the
caller (the row as created, spread together with `emailStatus`), the stored
row after `sendFeedbackEmails` wrote the notification flags, the pending
store after the dedup-checked insert, and the list of attempted email sends
in dispatch order. -/
structure CreateResult where
  returned : FeedbackSubmission
  emailStatus : Option EmailStatus
  stored : FeedbackSubmission
  pendingStoreAfter : List PendingEntry
  attempts : List EmailKind

namespace feedbackService

/-- The FeedbackSubmission row written by `prisma.feedbackSubmission.create`
(auth.service.ts lines 312-319).  `status`, `admin_notes`,
`assigned_department` and the two notification flags are not in the insert
data; their defaults (`new`, NULL, NULL, false, false) come from the Prisma
schema (not under src/), matching the §4.2 lifecycle and §4.3 flags of the
spec. -/
def createRow (d : CreateFeedbackDto) (fid : Nat) (referenceId surveyToken : String) :
    FeedbackSubmission :=
  { id := fid, reference_id := referenceId, anonymous := d.anonymous,
    reporter_email := d.reporter_email, feedback_type := d.feedback_type,
    facility_type := d.facility_type, facility_state := d.facility_state,
    facility_lga := d.facility_lga, facility_name := d.facility_name,
    department := d.department, location := d.location,
    description := d.description,
    issue_classification := d.issue_classification,
    issue_classification_other := d.issue_classification_other,
    survey_token := surveyToken, status := FeedbackStatus.new,
    admin_notes := none, assigned_department := none,
    confirmation_email_sent := false, followup_email_sent := false }

/-- Embedding of `feedbackService.create` (auth.service.ts lines 308-479).
The primary `feedbackSubmission.create` write is assumed to commit (the
claims under verification all start after the durability boundary of §4.1
step 2).  The try/catch of the pending-entry block and the outer try/catch
around the email block only matter on store/dispatcher crashes that no claim
exercises beyond what `facilityLookupThrows` and `delivered` model. -/
def create (d : CreateFeedbackDto) (env : CreateEnv) : CreateResult :=
  let referenceId := generateReferenceId env.dateStr env.randStr
  let feedback := createRow d env.fid referenceId env.surveyToken
  let cands := pendingEntriesToCreate d env.facilities env.facilityLookupThrows feedback.id
  let newCands := if cands.isEmpty then [] else newEntriesAfterDedup cands env.pendingStore
  let store' := env.pendingStore ++
    (newCands.enum.map fun p => candToRow p.2 (env.nextPendingId + p.1) env.now)
  if truthy d.reporter_email && !d.anonymous then
    let st : EmailStatus :=
      { confirmationSent := env.delivered EmailKind.confirmation,
        followupSent := env.delivered EmailKind.followup,
        adminNotificationSent := env.delivered EmailKind.adminNotification }
    let storedRow := { feedback with
      confirmation_email_sent := st.confirmationSent,
      followup_email_sent := st.followupSent }
    { returned := feedback, emailStatus := some st, stored := storedRow,
      pendingStoreAfter := store',
      attempts := [EmailKind.confirmation, EmailKind.followup, EmailKind.adminNotification] }
  else
    { returned := feedback, emailStatus := none, stored := feedback,
      pendingStoreAfter := store',
      attempts := [EmailKind.adminNotification] }

/-- Fields of `UpdateFeedbackDto` (admin update).  The outer `Option` is
field absence: an absent field leaves the column unchanged, a present field
overwrites it (Prisma update semantics). -/
structure UpdateFeedbackDto where
  status : Option FeedbackStatus := none
  admin_notes : Option (Option String) := none
  assigned_department : Option (Option String) := none
deriving Repr, DecidableEq

/-- The `prisma.feedbackSubmission.update` write of `feedbackService.update`:
only the DTO fields can change; identity, reporter contact and flags are
untouched. -/
def applyFeedbackUpdate (sub : FeedbackSubmission) (d : UpdateFeedbackDto) :
    FeedbackSubmission :=
  { sub with
    status := d.status.getD sub.status,
    admin_notes := d.admin_notes.getD sub.admin_notes,
    assigned_department := d.assigned_department.getD sub.assigned_department }

/-- Observable outcome of one `feedbackService.update` call. -/
structure UpdateResult where
  returned : FeedbackSubmission
  caseClosedEmailSent : Option Bool
  caseClosedAttempts : Nat
deriving Repr, DecidableEq

/-- Embedding of `feedbackService.update` (auth.service.ts lines 585-615).
`sub` is the stored row found by `getById`; `deliveredCaseClosed` is the
boolean the dispatcher reports for the case-closed email.  The guard is the
one of the code: `data.status === "closed" && existingFeedback.status !== "closed"
&& feedback.reporter_email && !feedback.anonymous`, where `feedback` is the
row after the update write. -/
def update (sub : FeedbackSubmission) (d : UpdateFeedbackDto)
    (deliveredCaseClosed : Bool) : UpdateResult :=
  let feedback := applyFeedbackUpdate sub d
  if d.status = some FeedbackStatus.closed ∧ sub.status ≠ FeedbackStatus.closed ∧
      truthy feedback.reporter_email = true ∧ feedback.anonymous = false then
    { returned := feedback, caseClosedEmailSent := some deliveredCaseClosed,
      caseClosedAttempts := 1 }
  else
    { returned := feedback, caseClosedEmailSent := none, caseClosedAttempts := 0 }

end feedbackService

/-- State touched by `pendingEntryService.updateStatus`: the pending-entry
store and the canonical facility directory. -/
structure ModState where
  pendings : List PendingEntry
  facilities : List HealthFacility
deriving Repr, DecidableEq

/-- Outcome of one `updateStatus` call.  `notFound` is the `notFoundError`
thrown by `getById`; `dirWriteError` is an exception escaping the
un-guarded `prisma.healthFacility.create` — in both cases the carried state
is what the stores hold when the exception propagates to the caller. -/
inductive USResult where
  | ok (state : ModState) (entry : PendingEntry)
  | notFound (state : ModState)
  | dirWriteError (state : ModState)
deriving Repr, DecidableEq

namespace pendingEntryService

/-- Prisma `pendingEntry.findUnique({ where: { id } })` used by `getById`. -/
def findEntry (l : List PendingEntry) (id : Nat) : Option PendingEntry :=
  l.find? fun e => e.id == id

/-- Prisma `pendingEntry.update({ where: { id }, data })`: rewrite the row
with the matching id. -/
def replaceEntry (l : List PendingEntry) (id : Nat) (e' : PendingEntry) :
    List PendingEntry :=
  l.map fun e => if e.id == id then e' else e

/-- The `updateData` object of `updateStatus` (part_011 lines 91-95) applied
to the row: always the new status; additionally `approved_at` and
`approved_by` when the decision is `approved`. -/
def applyUpdate (e : PendingEntry) (status : PendingStatus) (approvedBy : String)
    (now : Nat) : PendingEntry :=
  if status = PendingStatus.approved then
    { e with status := status, approved_at := some now, approved_by := some approvedBy }
  else
    { e with status := status }

/-- The `ownershipTypeMap` lookup with its `|| "unknown"` fallback
(part_011 lines 100-105). -/
def ownershipOf (ft : Option String) : String :=
  let k := jsToLowerCase (ft.getD "")
  if k == "federal" then "federal"
  else if k == "state" then "state"
  else if k == "private" then "private"
  else "unknown"

/-- The directory row written on promotion (part_011 lines 117-124). -/
def promotedFacility (e : PendingEntry) : HealthFacility :=
  { facility_name := e.value, state := e.state.getD "", lga := e.lga.getD "",
    ownership_type := ownershipOf e.facility_type }

/-- Embedding of `pendingEntryService.updateStatus` (part_011 lines 84-138).
Control flow follows the source: `getById` (throwing `notFound` when absent);
for an `approved` decision on a facility entry with truthy state, lga and
value, a commit-time re-check of the directory and a `healthFacility.create`
when absent — that create is NOT inside a try/catch, so when it fails
(`dirWriteFails`) the error propagates before `pendingEntry.update` runs;
otherwise the row is updated and returned. -/
def updateStatus (id : Nat) (status : PendingStatus) (approvedBy : String)
    (now : Nat) (dirWriteFails : Bool) (st : ModState) : USResult :=
  match findEntry st.pendings id with
  | none => USResult.notFound st
  | some entry =>
    let entry' := applyUpdate entry status approvedBy now
    if status = PendingStatus.approved ∧ entry.entry_type = "facility" ∧
        truthy entry.state = true ∧ truthy entry.lga = true ∧ entry.value ≠ "" then
      if facilityExists st.facilities entry.value (entry.state.getD "") (entry.lga.getD "") then
        USResult.ok { st with pendings := replaceEntry st.pendings id entry' } entry'
      else if dirWriteFails then
        USResult.dirWriteError st
      else
        USResult.ok
          { pendings := replaceEntry st.pendings id entry',
            facilities := st.facilities ++ [promotedFacility entry] }
          entry'
    else
      USResult.ok { st with pendings := replaceEntry st.pendings id entry' } entry'

end pendingEntryService

/-- Concrete pending facility entry used by the concrete scenarios: the
§8 example candidate of the spec, `"Hope Clinic"` in `"Lagos"` / `"Ikeja"`. -/
def sampleFacilityEntry : PendingEntry :=
  { id := 1, entry_type := "facility", value := "Hope Clinic",
    feedback_id := some 10, facility_type := some "private",
    state := some "Lagos", lga := some "Ikeja",
    status := PendingStatus.pending, created_at := 0,
    approved_at := none, approved_by := none }

/-- Moderation state holding only `sampleFacilityEntry`, with an empty
directory. -/
def sampleModState : ModState :=
  { pendings := [sampleFacilityEntry], facilities := [] }

/-- A rejected pending entry carrying the same dedup key as the
`"Hope Clinic"` candidate (different casing, to exercise the
case-insensitive match). -/
def rejectedDupEntry : PendingEntry :=
  { id := 5, entry_type := "facility", value := "hope clinic",
    feedback_id := none, facility_type := none,
    state := some "lagos", lga := some "ikeja",
    status := PendingStatus.rejected, created_at := 0,
    approved_at := none, approved_by := some "moderator@portal" }

/-- Non-anonymous submission payload with an email and the `"Hope Clinic"`
facility triple, a custom department, and an `Other` issue classification. -/
def sampleDto : CreateFeedbackDto :=
  { anonymous := false, reporter_email := some "reporter@example.com",
    feedback_type := "complaint", facility_type := some "private",
    facility_state := some "Lagos", facility_lga := some "Ikeja",
    facility_name := some "Hope Clinic", department := some "Telemetry",
    location := none, description := "long waiting time",
    issue_classification := some "Other",
    issue_classification_other := some "Price gouging" }

/-- The same payload submitted anonymously (the reporter email stays in the
payload). -/
def anonDto : CreateFeedbackDto :=
  { sampleDto with anonymous := true }

/-- Environment in which every notification channel attempt fails. -/
def failAllEnv : CreateEnv :=
  { facilities := [], facilityLookupThrows := false, pendingStore := [],
    delivered := fun _ => false, dateStr := "20260120", randStr := "0.a3b7c9",
    surveyToken := "tok-1", fid := 1, nextPendingId := 1, now := 0 }

/-- Environment in which the directory-existence lookup throws. -/
def throwEnv : CreateEnv :=
  { failAllEnv with facilityLookupThrows := true }

/-- Resubmission payload carrying only the `"Hope Clinic"` facility
candidate whose dedup key matches `rejectedDupEntry`. -/
def dupDto : CreateFeedbackDto :=
  { anonymous := true, reporter_email := none, feedback_type := "complaint",
    facility_type := some "private", facility_state := some "Lagos",
    facility_lga := some "Ikeja", facility_name := some "Hope Clinic",
    department := none, location := none, description := "second report",
    issue_classification := none, issue_classification_other := none }

/-- Environment whose pending store already holds `rejectedDupEntry` and
whose channels all deliver. -/
def dupEnv : CreateEnv :=
  { facilities := [], facilityLookupThrows := false,
    pendingStore := [rejectedDupEntry], delivered := fun _ => true,
    dateStr := "20260121", randStr := "0.xk92mq7", surveyToken := "tok-2",
    fid := 42, nextPendingId := 100, now := 7 }

end Portal

/-- Claim C1: the reference code returned by create matches
`FB-\d{8}-[A-Z0-9]{5}` for every possible value of the random source.  This
fails: `Math.random()` can return `0.5`, whose base-36 rendering is `"0.i"`,
so `substring(2, 7)` keeps a single character and the generated code
`FB-20260120-I` has a 1-character suffix — contradicting the very
doc comment `Format: FB-YYYYMMDD-XXXXX (e.g., FB-20260120-A3B7C)`.  The last
conjunct checks the documented example does match, so the matcher itself is
faithful to the pattern. -/
theorem C1_refId_suffix_can_be_short :
    Portal.jsNumToString36 1 2 20 = "0.i" ∧
    Portal.feedbackService.generateReferenceId "20260120" "0.i" = "FB-20260120-I" ∧
    Portal.matchesRefPattern "FB-20260120-I" = false ∧
    Portal.matchesRefPattern "FB-20260120-A3B7C" = true := by
  refine ⟨?_, ?_, ?_, ?_⟩ <;> decide

namespace Portal

open feedbackService pendingEntryService

/-- Characterisation of the dedup filter of `create`: a candidate survives
iff no row of the store that the `findMany` query returns carries its dedup
key.  The row status appears nowhere — the query has no status filter. -/
theorem newEntriesAfterDedup_mem_iff (cands : List CandidateEntry)
    (store : List PendingEntry) (c : CandidateEntry) :
    c ∈ newEntriesAfterDedup cands store ↔
      c ∈ cands ∧ ∀ e ∈ store,
        (∃ c' ∈ cands, orBranchMatches c' e = true) → entryKey e ≠ candKey c := by
  simp only [newEntriesAfterDedup, existingEntriesFor, List.mem_filter,
    Bool.not_eq_true', List.any_eq_false, List.any_eq_true, beq_iff_eq,
    ne_eq, and_imp]

/-- Claim C2 (counterexample): resubmitting the "Hope Clinic" candidate when
the only dedup-key match in the store is a rejected entry creates NO new
pending entry — the store is unchanged — even though the candidate was
derived (second conjunct).  The dedup query of `create` has no status
filter, so rejected entries do block recreation, contrary to the claim. -/
theorem C2_counterexample_rejected_blocks :
    (create dupDto dupEnv).pendingStoreAfter = [rejectedDupEntry] ∧
    pendingEntriesToCreate dupDto dupEnv.facilities dupEnv.facilityLookupThrows dupEnv.fid =
      [mkFacilityCand dupDto "Hope Clinic" "Lagos" "Ikeja" 42] := by
  refine ⟨?_, ?_⟩ <;> decide

/-- Claim C2 (amended): the dedup suppression is status-blind.  A candidate
is inserted iff no existing PendingEntry row matched by the dedup query — of
any status, rejected included (no status occurs in the condition) — carries
the dedup key of the candidate; hence a candidate whose key matches only
rejected entries is also suppressed, and no key visible to the query is
ever inserted twice. -/
theorem C2_amended_dedup_status_blind (cands : List CandidateEntry)
    (store : List PendingEntry) (c : CandidateEntry) :
    c ∈ newEntriesAfterDedup cands store ↔
      c ∈ cands ∧ ∀ e ∈ store,
        (∃ c' ∈ cands, orBranchMatches c' e = true) → entryKey e ≠ candKey c :=
  newEntriesAfterDedup_mem_iff cands store c

/-- Claim C5: one `update` call makes exactly one case-closed dispatch
attempt when the new status is `closed`, the prior stored status was not
`closed`, and the submission is non-anonymous with a reporter email — and
zero attempts otherwise.  In particular a closed-to-closed update makes zero
attempts, for every stored submission and therefore along every sequence of
update calls. -/
theorem C5_case_closed_guard (sub : FeedbackSubmission) (d : UpdateFeedbackDto)
    (b : Bool) :
    (update sub d b).caseClosedAttempts =
      if d.status = some FeedbackStatus.closed ∧ sub.status ≠ FeedbackStatus.closed ∧
          truthy sub.reporter_email = true ∧ sub.anonymous = false then 1 else 0 := by
  unfold update applyFeedbackUpdate
  dsimp only
  split_ifs with h <;> rfl

/-- Claim C6: when every notification channel attempt fails, `create` still
returns the minted id and reference code, and the stored submission keeps
both notification flags false (the explicit flag write of
`sendFeedbackEmails` records the failed outcomes). -/
theorem C6_all_channels_fail_still_succeeds (d : CreateFeedbackDto)
    (env : CreateEnv) (hch : ∀ k, env.delivered k = false) :
    (create d env).returned.id = env.fid ∧
    (create d env).returned.reference_id = generateReferenceId env.dateStr env.randStr ∧
    (create d env).stored.confirmation_email_sent = false ∧
    (create d env).stored.followup_email_sent = false := by
  by_cases h : (truthy d.reporter_email && !d.anonymous) = true
  · simp [create, createRow, h, hch]
  · simp [create, createRow, h]

/-- Claim C6 witness: the concrete non-anonymous submission under the
all-channels-fail environment. -/
theorem C6_all_channels_fail_still_succeeds_witness :
    (create sampleDto failAllEnv).returned.id = failAllEnv.fid ∧
    (create sampleDto failAllEnv).returned.reference_id =
      generateReferenceId failAllEnv.dateStr failAllEnv.randStr ∧
    (create sampleDto failAllEnv).stored.confirmation_email_sent = false ∧
    (create sampleDto failAllEnv).stored.followup_email_sent = false :=
  C6_all_channels_fail_still_succeeds sampleDto failAllEnv (fun _ => rfl)

/-- Claim C10: an anonymous submission — even one whose payload carries a
reporter email — triggers only the admin-notification attempt, no
confirmation and no survey follow-up, and the returned email status summary
is absent. -/
theorem C10_anonymous_only_admin_notified (d : CreateFeedbackDto)
    (env : CreateEnv) (h : d.anonymous = true) :
    (create d env).attempts = [EmailKind.adminNotification] ∧
    (create d env).emailStatus = none := by
  simp [create, h]

/-- Claim C10 witness: the concrete anonymous payload that still carries
`reporter_email = some "reporter@example.com"`. -/
theorem C10_anonymous_only_admin_notified_witness :
    anonDto.reporter_email = some "reporter@example.com" ∧
    (create anonDto failAllEnv).attempts = [EmailKind.adminNotification] ∧
    (create anonDto failAllEnv).emailStatus = none :=
  ⟨rfl, C10_anonymous_only_admin_notified anonDto failAllEnv rfl⟩

/-- Both branches of the email guard of `create` leave the same pending
store: the dedup-checked insert happens before the guard. -/
theorem create_pendingStoreAfter (d : CreateFeedbackDto) (env : CreateEnv) :
    (create d env).pendingStoreAfter =
      env.pendingStore ++
        ((if (pendingEntriesToCreate d env.facilities env.facilityLookupThrows env.fid).isEmpty
            then []
            else newEntriesAfterDedup
              (pendingEntriesToCreate d env.facilities env.facilityLookupThrows env.fid)
              env.pendingStore).enum.map
          fun p => candToRow p.2 (env.nextPendingId + p.1) env.now) := by
  unfold create
  dsimp only
  split <;> rfl

/-- Both branches of the email guard return the row minted with `env.fid`. -/
theorem create_returned_id (d : CreateFeedbackDto) (env : CreateEnv) :
    (create d env).returned.id = env.fid := by
  unfold create createRow
  dsimp only
  split <;> rfl

/-- Membership in a list yields an indexed membership in its enumeration. -/
theorem exists_enum_pair_of_mem {α : Type} :
    ∀ {l : List α} {a : α} (n : Nat), a ∈ l → ∃ i, (i, a) ∈ l.enumFrom n := by
  intro l
  induction l with
  | nil => intro a n h; cases h
  | cons b t ih =>
    intro a n h
    rcases List.mem_cons.mp h with rfl | ht
    · exact ⟨n, List.mem_cons_self _ _⟩
    · obtain ⟨i, hi⟩ := ih (n + 1) ht
      exact ⟨i, List.mem_cons_of_mem _ hi⟩

/-- Claim C7: when the directory-existence lookup throws during candidate
derivation and the store holds no entry with the dedup key of the facility
candidate, `create` is not aborted — it still returns the row minted with
`env.fid` — and the facility pending entry is created anyway (fail open
toward moderation). -/
theorem C7_lookup_throw_fails_open (d : CreateFeedbackDto) (env : CreateEnv)
    (name st lg : String)
    (hn : d.facility_name = some name) (hs : d.facility_state = some st)
    (hl : d.facility_lga = some lg)
    (hne : name ≠ "" ∧ st ≠ "" ∧ lg ≠ "")
    (hthrow : env.facilityLookupThrows = true)
    (hnodup : ∀ e ∈ env.pendingStore,
      entryKey e ≠ candKey (mkFacilityCand d name st lg env.fid)) :
    (create d env).returned.id = env.fid ∧
    ∃ i, candToRow (mkFacilityCand d name st lg env.fid) i env.now ∈
      (create d env).pendingStoreAfter := by
  have hfc : facilityCandidates d env.facilities env.facilityLookupThrows env.fid =
      [mkFacilityCand d name st lg env.fid] := by
    rw [hthrow]
    simp [facilityCandidates, hn, hs, hl, hne.1, hne.2.1, hne.2.2]
  have hmem : mkFacilityCand d name st lg env.fid ∈
      pendingEntriesToCreate d env.facilities env.facilityLookupThrows env.fid := by
    rw [pendingEntriesToCreate, hfc]
    simp
  have hnew : mkFacilityCand d name st lg env.fid ∈
      newEntriesAfterDedup
        (pendingEntriesToCreate d env.facilities env.facilityLookupThrows env.fid)
        env.pendingStore :=
    (newEntriesAfterDedup_mem_iff _ _ _).mpr ⟨hmem, fun e he _ => hnodup e he⟩
  have hcne : (pendingEntriesToCreate d env.facilities env.facilityLookupThrows env.fid).isEmpty = false := by
    cases hc : pendingEntriesToCreate d env.facilities env.facilityLookupThrows env.fid with
    | nil => rw [hc] at hmem; cases hmem
    | cons a l => rfl
  refine ⟨create_returned_id d env, ?_⟩
  obtain ⟨i, hi⟩ := exists_enum_pair_of_mem 0 hnew
  refine ⟨env.nextPendingId + i, ?_⟩
  rw [create_pendingStoreAfter, hcne]
  refine List.mem_append_right _ ?_
  exact List.mem_map.mpr ⟨(i, mkFacilityCand d name st lg env.fid), hi, rfl⟩

/-- Claim C7 witness: the concrete submission under the lookup-throwing
environment with an empty pending store. -/
theorem C7_lookup_throw_fails_open_witness :
    (create sampleDto throwEnv).returned.id = throwEnv.fid ∧
    ∃ i, candToRow (mkFacilityCand sampleDto "Hope Clinic" "Lagos" "Ikeja" throwEnv.fid)
      i throwEnv.now ∈ (create sampleDto throwEnv).pendingStoreAfter :=
  C7_lookup_throw_fails_open sampleDto throwEnv "Hope Clinic" "Lagos" "Ikeja"
    rfl rfl rfl (by decide) rfl (by intro e he _; cases he)

/-- Every facility-block candidate is tagged `"facility"`, so a foreign tag
never matches it. -/
theorem facilityCandidates_any_foreign (d : CreateFeedbackDto)
    (facilities : List HealthFacility) (b : Bool) (fid : Nat) (t : String)
    (ht : t ≠ "facility") :
    ((facilityCandidates d facilities b fid).any fun c => c.entry_type == t) = false := by
  unfold facilityCandidates
  cases d.facility_name <;> cases d.facility_state <;> cases d.facility_lga <;>
    first
      | rfl
      | (dsimp only; split_ifs <;> simp [mkFacilityCand, beq_iff_eq, Ne.symm ht])

/-- Every department-block candidate is tagged `"department"`. -/
theorem departmentCandidates_any_foreign (d : CreateFeedbackDto) (fid : Nat)
    (t : String) (ht : t ≠ "department") :
    ((departmentCandidates d fid).any fun c => c.entry_type == t) = false := by
  unfold departmentCandidates
  cases d.department <;>
    first
      | rfl
      | (dsimp only; split_ifs <;> simp [beq_iff_eq, Ne.symm ht])

/-- Every location-block candidate is tagged `"location"`. -/
theorem locationCandidates_any_foreign (d : CreateFeedbackDto) (fid : Nat)
    (t : String) (ht : t ≠ "location") :
    ((locationCandidates d fid).any fun c => c.entry_type == t) = false := by
  unfold locationCandidates
  cases d.location <;>
    first
      | rfl
      | (dsimp only; split_ifs <;> simp [beq_iff_eq, Ne.symm ht])

/-- Every issue-classification-block candidate is tagged
`"issue_classification"`. -/
theorem issueClassificationCandidates_any_foreign (d : CreateFeedbackDto) (fid : Nat)
    (t : String) (ht : t ≠ "issue_classification") :
    ((issueClassificationCandidates d fid).any fun c => c.entry_type == t) = false := by
  unfold issueClassificationCandidates
  cases d.issue_classification_other <;>
    first
      | rfl
      | (dsimp only; split_ifs <;> simp [beq_iff_eq, Ne.symm ht])

/-- The facility block is nonempty exactly under the §4.1-step-3 condition
(with a succeeding lookup). -/
theorem facilityCandidates_any_own (d : CreateFeedbackDto)
    (facilities : List HealthFacility) (fid : Nat) :
    ((facilityCandidates d facilities false fid).any
        fun c => c.entry_type == "facility") = true ↔
      ∃ name st lg, d.facility_name = some name ∧ d.facility_state = some st ∧
        d.facility_lga = some lg ∧ name ≠ "" ∧ st ≠ "" ∧ lg ≠ "" ∧
        facilityExists facilities name st lg = false := by
  unfold facilityCandidates
  cases hn : d.facility_name <;> cases hs : d.facility_state <;>
    cases hl : d.facility_lga <;> simp [mkFacilityCand]
  aesop

/-- The department block is nonempty exactly when the department value is
truthy and outside the fixed vocabulary. -/
theorem departmentCandidates_any_own (d : CreateFeedbackDto) (fid : Nat) :
    ((departmentCandidates d fid).any fun c => c.entry_type == "department") = true ↔
      ∃ dep, d.department = some dep ∧ dep ≠ "" ∧ dep ∉ predefinedDepartments := by
  unfold departmentCandidates
  cases hd : d.department <;> simp
  aesop

/-- The location block is nonempty exactly when the location value is truthy
and outside the fixed vocabulary. -/
theorem locationCandidates_any_own (d : CreateFeedbackDto) (fid : Nat) :
    ((locationCandidates d fid).any fun c => c.entry_type == "location") = true ↔
      ∃ loc, d.location = some loc ∧ loc ≠ "" ∧ loc ∉ predefinedLocations := by
  unfold locationCandidates
  cases hd : d.location <;> simp
  aesop

/-- The issue-classification block is nonempty exactly when free text was
supplied and the classification field is the literal string `"Other"`. -/
theorem issueClassificationCandidates_any_own (d : CreateFeedbackDto) (fid : Nat) :
    ((issueClassificationCandidates d fid).any
        fun c => c.entry_type == "issue_classification") = true ↔
      ∃ other, d.issue_classification_other = some other ∧ other ≠ "" ∧
        d.issue_classification = some "Other" := by
  unfold issueClassificationCandidates
  cases hd : d.issue_classification_other <;> simp
  aesop

/-- Claim C8: with a succeeding directory lookup, `create` derives a facility
candidate iff name, state and lga are all truthy and no case-insensitive
directory match exists; a department (resp. location) candidate iff the
value is truthy and outside the fixed vocabulary; and an
issue-classification candidate iff the classification field is the literal
`"Other"` and free text was supplied. -/
theorem C8_candidate_derivation_iff (d : CreateFeedbackDto)
    (facilities : List HealthFacility) (fid : Nat) :
    (((pendingEntriesToCreate d facilities false fid).any
        fun c => c.entry_type == "facility") = true ↔
      ∃ name st lg, d.facility_name = some name ∧ d.facility_state = some st ∧
        d.facility_lga = some lg ∧ name ≠ "" ∧ st ≠ "" ∧ lg ≠ "" ∧
        facilityExists facilities name st lg = false) ∧
    (((pendingEntriesToCreate d facilities false fid).any
        fun c => c.entry_type == "department") = true ↔
      ∃ dep, d.department = some dep ∧ dep ≠ "" ∧ dep ∉ predefinedDepartments) ∧
    (((pendingEntriesToCreate d facilities false fid).any
        fun c => c.entry_type == "location") = true ↔
      ∃ loc, d.location = some loc ∧ loc ≠ "" ∧ loc ∉ predefinedLocations) ∧
    (((pendingEntriesToCreate d facilities false fid).any
        fun c => c.entry_type == "issue_classification") = true ↔
      ∃ other, d.issue_classification_other = some other ∧ other ≠ "" ∧
        d.issue_classification = some "Other") := by
  refine ⟨?_, ?_, ?_, ?_⟩
  · rw [pendingEntriesToCreate, List.any_append, List.any_append, List.any_append,
      departmentCandidates_any_foreign d fid "facility" (by decide),
      locationCandidates_any_foreign d fid "facility" (by decide),
      issueClassificationCandidates_any_foreign d fid "facility" (by decide)]
    simp only [Bool.or_false]
    exact facilityCandidates_any_own d facilities fid
  · rw [pendingEntriesToCreate, List.any_append, List.any_append, List.any_append,
      facilityCandidates_any_foreign d facilities false fid "department" (by decide),
      locationCandidates_any_foreign d fid "department" (by decide),
      issueClassificationCandidates_any_foreign d fid "department" (by decide)]
    simp only [Bool.false_or, Bool.or_false]
    exact departmentCandidates_any_own d fid
  · rw [pendingEntriesToCreate, List.any_append, List.any_append, List.any_append,
      facilityCandidates_any_foreign d facilities false fid "location" (by decide),
      departmentCandidates_any_foreign d fid "location" (by decide),
      issueClassificationCandidates_any_foreign d fid "location" (by decide)]
    simp only [Bool.false_or, Bool.or_false]
    exact locationCandidates_any_own d fid
  · rw [pendingEntriesToCreate, List.any_append, List.any_append, List.any_append,
      facilityCandidates_any_foreign d facilities false fid "issue_classification" (by decide),
      departmentCandidates_any_foreign d fid "issue_classification" (by decide),
      locationCandidates_any_foreign d fid "issue_classification" (by decide)]
    simp only [Bool.false_or, Bool.or_false]
    exact issueClassificationCandidates_any_own d fid

/-- The row found by `getById` carries the queried id. -/
theorem findEntry_eq_id {l : List PendingEntry} {id : Nat} {e : PendingEntry}
    (h : findEntry l id = some e) : e.id = id := by
  have := List.find?_some h
  simpa using this

/-- Replacing the found row makes the subsequent `getById` return the
replacement. -/
theorem findEntry_replaceEntry {l : List PendingEntry} {id : Nat}
    {e e' : PendingEntry} (h : findEntry l id = some e) (hid : e'.id = id) :
    findEntry (replaceEntry l id e') id = some e' := by
  induction l with
  | nil => simp [findEntry] at h
  | cons a t ih =>
    by_cases ha : a.id = id
    · simp only [findEntry, replaceEntry, List.map_cons]
      rw [if_pos (by simpa using ha)]
      rw [List.find?_cons_of_pos _ (by simpa using hid)]
    · simp only [findEntry, replaceEntry, List.map_cons]
      rw [if_neg (by simpa using ha)]
      rw [List.find?_cons_of_neg _ (by simpa using ha)]
      apply ih
      have h' := h
      rw [findEntry] at h'
      rwa [List.find?_cons_of_neg _ (by simpa using ha)] at h'

/-- The update-data write never touches id, type, value, disambiguators or
the facility type. -/
theorem applyUpdate_fields (e : PendingEntry) (s : PendingStatus)
    (b : String) (n : Nat) :
    (applyUpdate e s b n).id = e.id ∧
    (applyUpdate e s b n).entry_type = e.entry_type ∧
    (applyUpdate e s b n).value = e.value ∧
    (applyUpdate e s b n).state = e.state ∧
    (applyUpdate e s b n).lga = e.lga ∧
    (applyUpdate e s b n).facility_type = e.facility_type := by
  unfold applyUpdate
  split_ifs <;> exact ⟨rfl, rfl, rfl, rfl, rfl, rfl⟩

/-- The update-data write always sets the requested status. -/
theorem applyUpdate_status (e : PendingEntry) (s : PendingStatus)
    (b : String) (n : Nat) : (applyUpdate e s b n).status = s := by
  unfold applyUpdate
  split_ifs <;> rfl

/-- Case-insensitive equality is reflexive. -/
theorem ieq_refl (a : String) : ieq a a = true := by
  simp [ieq]

/-- Claim C3 (counterexample): approving the concrete pending facility entry
while the directory write fails makes `updateStatus` propagate the error
with the stores untouched — in particular the entry is still `pending`, so
the approved transition is NOT recorded, contrary to the claim that the
promotion failure is surfaced as a warning while the transition commits. -/
theorem C3_counterexample_promotion_failure_aborts :
    updateStatus 1 PendingStatus.approved "admin@portal" 5 true sampleModState =
      USResult.dirWriteError sampleModState ∧
    (findEntry sampleModState.pendings 1).map (fun e => e.status) =
      some PendingStatus.pending := by
  refine ⟨?_, ?_⟩ <;> decide

/-- Claim C3 (amended): when the promotion write into the directory fails,
`updateStatus` aborts jointly — the error propagates to the caller and the
PendingEntry status transition is not recorded (the stores are exactly the
ones the call started with). -/
theorem C3_amended_promotion_failure_rolls_back (id : Nat) (approvedBy : String)
    (now : Nat) (st : ModState) (entry : PendingEntry)
    (hfind : findEntry st.pendings id = some entry)
    (hty : entry.entry_type = "facility")
    (hst : truthy entry.state = true) (hlg : truthy entry.lga = true)
    (hv : entry.value ≠ "")
    (hnof : facilityExists st.facilities entry.value (entry.state.getD "")
      (entry.lga.getD "") = false) :
    updateStatus id PendingStatus.approved approvedBy now true st =
      USResult.dirWriteError st := by
  simp [updateStatus, hfind, hty, hst, hlg, hv, hnof]

/-- Claim C3 amended witness: the concrete pending facility entry. -/
theorem C3_amended_promotion_failure_rolls_back_witness :
    updateStatus 1 PendingStatus.approved "admin@portal" 5 true sampleModState =
      USResult.dirWriteError sampleModState :=
  C3_amended_promotion_failure_rolls_back 1 "admin@portal" 5 sampleModState
    sampleFacilityEntry (by decide) rfl rfl rfl (by decide) (by decide)

/-- Claim C4: approving a facility PendingEntry when no case-insensitive
directory match exists creates exactly one new Directory Entry (the
facilities list is extended by exactly the promoted row), and re-running the
approval on the resulting state creates no second one (the commit-time
re-check finds the row just written). -/
theorem C4_promotion_exactly_once_and_idempotent (id : Nat) (approvedBy : String)
    (now : Nat) (st : ModState) (entry : PendingEntry)
    (hfind : findEntry st.pendings id = some entry)
    (hty : entry.entry_type = "facility")
    (hst : truthy entry.state = true) (hlg : truthy entry.lga = true)
    (hv : entry.value ≠ "")
    (hnof : facilityExists st.facilities entry.value (entry.state.getD "")
      (entry.lga.getD "") = false) :
    ∃ st₁ e₁,
      updateStatus id PendingStatus.approved approvedBy now false st =
        USResult.ok st₁ e₁ ∧
      st₁.facilities = st.facilities ++ [promotedFacility entry] ∧
      e₁.status = PendingStatus.approved ∧
      ∀ approvedBy₂ now₂, ∃ st₂ e₂,
        updateStatus id PendingStatus.approved approvedBy₂ now₂ false st₁ =
          USResult.ok st₂ e₂ ∧
        st₂.facilities = st₁.facilities := by
  obtain ⟨hid₀, hety, hval, hstold, hlgold, hfty⟩ :=
    applyUpdate_fields entry PendingStatus.approved approvedBy now
  refine ⟨⟨replaceEntry st.pendings id (applyUpdate entry PendingStatus.approved approvedBy now),
      st.facilities ++ [promotedFacility entry]⟩,
    applyUpdate entry PendingStatus.approved approvedBy now,
    ?_, rfl, applyUpdate_status entry PendingStatus.approved approvedBy now, ?_⟩
  · simp [updateStatus, hfind, hty, hst, hlg, hv, hnof]
  · intro approvedBy₂ now₂
    have hid1 : (applyUpdate entry PendingStatus.approved approvedBy now).id = id :=
      hid₀.trans (findEntry_eq_id hfind)
    have hfind₁ :
        findEntry
          (replaceEntry st.pendings id
            (applyUpdate entry PendingStatus.approved approvedBy now)) id =
          some (applyUpdate entry PendingStatus.approved approvedBy now) :=
      findEntry_replaceEntry hfind hid1
    have hex : facilityExists (st.facilities ++ [promotedFacility entry])
        entry.value (entry.state.getD "") (entry.lga.getD "") = true := by
      unfold facilityExists promotedFacility
      rw [List.any_append]
      simp [ieq_refl]
    refine ⟨⟨replaceEntry
          (replaceEntry st.pendings id (applyUpdate entry PendingStatus.approved approvedBy now)) id
          (applyUpdate (applyUpdate entry PendingStatus.approved approvedBy now)
            PendingStatus.approved approvedBy₂ now₂),
        st.facilities ++ [promotedFacility entry]⟩,
      applyUpdate (applyUpdate entry PendingStatus.approved approvedBy now)
        PendingStatus.approved approvedBy₂ now₂, ?_, rfl⟩
    simp [updateStatus, hfind₁, hety, hval, hstold, hlgold, hty, hst, hlg, hv, hex]

/-- Claim C4 witness: the concrete pending "Hope Clinic" facility entry over
an empty directory. -/
theorem C4_promotion_exactly_once_and_idempotent_witness :
    ∃ st₁ e₁,
      updateStatus 1 PendingStatus.approved "admin@portal" 5 false sampleModState =
        USResult.ok st₁ e₁ ∧
      st₁.facilities = sampleModState.facilities ++ [promotedFacility sampleFacilityEntry] ∧
      e₁.status = PendingStatus.approved ∧
      ∀ approvedBy₂ now₂, ∃ st₂ e₂,
        updateStatus 1 PendingStatus.approved approvedBy₂ now₂ false st₁ =
          USResult.ok st₂ e₂ ∧
        st₂.facilities = st₁.facilities :=
  C4_promotion_exactly_once_and_idempotent 1 "admin@portal" 5 sampleModState
    sampleFacilityEntry (by decide) rfl rfl rfl (by decide) (by decide)

/-- Claim C9 (counterexample): rejecting the concrete pending entry at
instant 9 records NO resolution timestamp — the resulting row is the old row
with only its status changed, and its `approved_at` field (the only
timestamp `updateStatus` ever writes) is still `none` — contrary to the
claim that a resolution timestamp is set. -/
theorem C9_counterexample_no_timestamp_on_reject :
    updateStatus 1 PendingStatus.rejected "moderator@portal" 9 false sampleModState =
      USResult.ok
        { pendings := [{ sampleFacilityEntry with status := PendingStatus.rejected }],
          facilities := [] }
        { sampleFacilityEntry with status := PendingStatus.rejected } ∧
    ({ sampleFacilityEntry with status := PendingStatus.rejected } : PendingEntry).approved_at =
      none := by
  refine ⟨?_, ?_⟩ <;> decide

/-- Claim C9 (amended): rejecting a PendingEntry sets its status only — no
timestamp is recorded — changes no other field of the entry, and performs no
write to the directory (the facilities list of the state is unchanged). -/
theorem C9_amended_reject_sets_status_only (id : Nat) (approvedBy : String)
    (now : Nat) (dirWriteFails : Bool) (st : ModState) (entry : PendingEntry)
    (hfind : findEntry st.pendings id = some entry) :
    updateStatus id PendingStatus.rejected approvedBy now dirWriteFails st =
      USResult.ok { st with pendings := replaceEntry st.pendings id { entry with status := PendingStatus.rejected } } { entry with status := PendingStatus.rejected } := by
  simp [updateStatus, hfind, applyUpdate]

/-- Claim C9 amended witness: the concrete pending entry. -/
theorem C9_amended_reject_sets_status_only_witness :
    updateStatus 1 PendingStatus.rejected "moderator@portal" 9 false sampleModState =
      USResult.ok { sampleModState with pendings := replaceEntry sampleModState.pendings 1 { sampleFacilityEntry with status := PendingStatus.rejected } } { sampleFacilityEntry with status := PendingStatus.rejected } :=
  C9_amended_reject_sets_status_only 1 "moderator@portal" 9 false sampleModState
    sampleFacilityEntry (by decide)

end Portal
